import Mathlib

/-!
Verification of the Product CRUD service (`service/routes.py` plus the
Product entity of `service/models.py`, the latter modelled from the spec
since its source is not part of the checked tree).

The embedding is executable: JSON-like request bodies are the inductive
`Value`, the relational store is an explicit `DB` record, and each route
handler is a pure function from its inputs and the store to a
`RouteResult` and the updated store.
-/

set_option autoImplicit false

namespace ProductService

/-- Modelled from the spec: the `Category` enumeration of the missing
`service/models.py` (spec section 3: "enumerated value over a fixed set
\x7bCLOTHS, FOOD, HOUSEWARES, ... UNKNOWN\x7d; unrecognized labels are
rejected"). -/
inductive Category where
  | CLOTHS
  | FOOD
  | HOUSEWARES
  | UNKNOWN
  deriving DecidableEq, Repr

/-- The symbolic name of a category, used by `serialize` (spec section 4.1:
"`category` is rendered as its symbolic name (string)"). -/
def Category.catName : Category → String
  | .CLOTHS => "CLOTHS"
  | .FOOD => "FOOD"
  | .HOUSEWARES => "HOUSEWARES"
  | .UNKNOWN => "UNKNOWN"

/-- Modelled from the spec: lookup of a category by its label, as done by
`Category[search_category]` in `list_products` and by `deserialize`;
unknown labels yield `none`. -/
def Category.fromName : String → Option Category
  | "CLOTHS" => some .CLOTHS
  | "FOOD" => some .FOOD
  | "HOUSEWARES" => some .HOUSEWARES
  | "UNKNOWN" => some .UNKNOWN
  | _ => none

/-- JSON-like values: request and response bodies. `vDict` is a Python
dict (association list), `vList` a JSON array. -/
inductive Value where
  | vNull
  | vBool (b : Bool)
  | vInt (n : Int)
  | vStr (s : String)
  | vList (xs : List Value)
  | vDict (fields : List (String × Value))

/-- First value bound to a key in a dict body (Python dict keys are
unique, so first-match lookup is faithful). -/
def lookupKV (fs : List (String × Value)) (k : String) : Option Value :=
  match fs with
  | [] => none
  | (k', v) :: rest => if k' = k then some v else lookupKV rest k

/-- Whether a value is boolean-typed, as `isinstance(value, bool)`. -/
def Value.isBool : Value → Bool
  | .vBool _ => true
  | _ => false

/-- The Python type diagnostic embedded in the boolean-type error message,
e.g. `<class 'str'>` for a string value (pinned by
`test_deserialize_available_not_bool`). -/
def pyTypeName : Value → String
  | .vNull => "<class 'NoneType'>"
  | .vBool _ => "<class 'bool'>"
  | .vInt _ => "<class 'int'>"
  | .vStr _ => "<class 'str'>"
  | .vList _ => "<class 'list'>"
  | .vDict _ => "<class 'dict'>"

/-- The Product entity (spec section 3). `id` is `none` for transient
(unsaved) instances; `price` is an exact decimal, embedded as a rational
number (spec: "compared and matched with exact decimal semantics"). -/
structure Product where
  id : Option Int
  name : String
  description : String
  price : ℚ
  available : Bool
  category : Category
  deriving DecidableEq

/-- A fresh `Product()` before deserialization populates it. -/
def emptyProduct : Product :=
  { id := none, name := "", description := "", price := 0,
    available := false, category := .UNKNOWN }

/-- Numeric value of a list of decimal digit characters, most significant
first. -/
def natOfDigits (ds : List Char) : Nat :=
  ds.foldl (fun a c => 10 * a + (c.toNat - 48)) 0

/-- Modelled from the spec: parsing a textual decimal price (spec section 3:
"`price` must be a valid decimal representation ... numeric value preserved
exactly"). Accepts an optional leading minus sign, an integer part, and an
optional fractional part, with at least one digit; anything else is
rejected. -/
def parsePriceChars (cs : List Char) : Option ℚ :=
  match cs with
  | [] => none
  | c :: rest =>
    if c = '-' then (parseUnsignedChars rest).map (fun q => -q)
    else parseUnsignedChars cs
where
  /-- Unsigned decimal: `digits`, `digits.digits`, `digits.` or `.digits`. -/
  parseUnsignedChars (cs : List Char) : Option ℚ :=
    let ds := cs.takeWhile Char.isDigit
    let rest := cs.dropWhile Char.isDigit
    match rest with
    | [] => if ds.isEmpty then none else some (mkRat (natOfDigits ds) 1)
    | '.' :: fs =>
      if fs.all Char.isDigit && !(ds.isEmpty && fs.isEmpty) then
        some (mkRat (natOfDigits ds * 10 ^ fs.length + natOfDigits fs) (10 ^ fs.length))
      else none
    | _ => none

/-- Python `str.strip()` on a character list: drop leading and trailing
whitespace. -/
def pyStrip (cs : List Char) : List Char :=
  ((cs.dropWhile Char.isWhitespace).reverse.dropWhile Char.isWhitespace).reverse

/-- Price from a body value: a textual decimal (stripped and parsed, as
the `Decimal` constructor does) or an integer; anything else is rejected. -/
def decodePrice : Value → Option ℚ
  | .vStr s => parsePriceChars (pyStrip s.data)
  | .vInt n => some (mkRat n 1)
  | _ => none

/-- Modelled from the spec: the `id` slot assigned by `deserialize`. The
source assigns the raw body value; only an integer yields a persistent id,
anything else leaves the entity transient. -/
def idOfValue : Value → Option Int
  | .vInt n => some n
  | _ => none

/-- Modelled from the spec: decoding of the data fields after `id`
(spec section 4.1), in source order `name`, `description`, `price`,
`available`, `category`. A missing key gives "Invalid product: missing
<field>"; a non-boolean `available` gives the boolean-type error; an
unknown `category` label gives "Invalid attribute: <value>"; other type
mismatches give the generic bad-data message. -/
def decodeRest (fs : List (String × Value)) :
    Except String (String × String × ℚ × Bool × Category) :=
  match lookupKV fs "name" with
  | none => .error "Invalid product: missing name"
  | some (.vStr nm) =>
    match lookupKV fs "description" with
    | none => .error "Invalid product: missing description"
    | some (.vStr d) =>
      match lookupKV fs "price" with
      | none => .error "Invalid product: missing price"
      | some pv =>
        match decodePrice pv with
        | none => .error "Invalid product: body of request contained bad or no data"
        | some pr =>
          match lookupKV fs "available" with
          | none => .error "Invalid product: missing available"
          | some (.vBool b) =>
            match lookupKV fs "category" with
            | none => .error "Invalid product: missing category"
            | some (.vStr c) =>
              match Category.fromName c with
              | some cat => .ok (nm, d, pr, b, cat)
              | none => .error ("Invalid attribute: " ++ c)
            | some _ => .error "Invalid product: body of request contained bad or no data"
          | some v => .error ("Invalid type for boolean [available]: " ++ pyTypeName v)
    | some _ => .error "Invalid product: body of request contained bad or no data"
  | some _ => .error "Invalid product: body of request contained bad or no data"

/-- Modelled from the spec: `Product.deserialize` of the missing
`service/models.py` (spec section 4.1), with two behaviours pinned by the
repository's unit tests rather than the spec text: the `id` key is read
first and assigned (`test_deserialize_empty_dictionary` expects
"Invalid product: missing id" on `\x7b\x7d`, and
`test_serialize_and_deserialize` expects `id` to round-trip), and a
present non-boolean `available` is reported with the boolean-type error
for every input (spec section 8). Non-dict bodies fail with the bad-data
message. All six fields of the result come from `data`; the prior state
of `self` is overwritten. -/
def deserialize (self : Product) (data : Value) : Except String Product :=
  match data with
  | .vDict fs =>
    match lookupKV fs "available" with
    | some v =>
      if v.isBool then deserializeFields self fs
      else .error ("Invalid type for boolean [available]: " ++ pyTypeName v)
    | none => deserializeFields self fs
  | _ => .error "Invalid product: body of request contained bad or no data"
where
  /-- Field-by-field assignment, `id` first. -/
  deserializeFields (self : Product) (fs : List (String × Value)) :
      Except String Product :=
    match lookupKV fs "id" with
    | none => .error "Invalid product: missing id"
    | some idv =>
      match decodeRest fs with
      | .error e => .error e
      | .ok (nm, d, pr, b, cat) =>
        .ok { id := idOfValue idv, name := nm, description := d,
              price := pr, available := b, category := cat }

/-- Decimal string with `k` fractional digits for the integer `m / 10^k`
(used by the price renderer; sign first, fractional part zero-padded). -/
def decDigitsString (m : Int) (k : Nat) : String :=
  if k = 0 then toString m
  else
    (if m < 0 then "-" else "") ++ toString (m.natAbs / 10 ^ k) ++ "." ++
      String.mk (List.replicate (k - (toString (m.natAbs % 10 ^ k)).length) '0') ++
      toString (m.natAbs % 10 ^ k)

/-- Modelled from the spec: the decimal-preserving textual rendering of a
price used by `serialize` (spec section 4.1: "`price` is rendered as a
string/decimal-preserving textual form"). Rationals whose denominator
divides a power of ten are printed as decimals; others fall back to a
fraction form (unreachable for prices that originate from decimals). -/
def renderPrice (q : ℚ) : String :=
  match (List.range (q.den + 1)).find? (fun k => decide (q.den ∣ 10 ^ k)) with
  | some k => decDigitsString (q.num * ((10 ^ k : Nat) / q.den : Nat)) k
  | none => toString q.num ++ "/" ++ toString q.den

/-- Modelled from the spec: `Product.serialize` (spec section 4.1):
"produces a mapping with keys `id, name, description, price, available,
category`"; a transient id serializes as null. -/
def serialize (p : Product) : List (String × Value) :=
  [("id", match p.id with | none => .vNull | some n => .vInt n),
   ("name", .vStr p.name),
   ("description", .vStr p.description),
   ("price", .vStr (renderPrice p.price)),
   ("available", .vBool p.available),
   ("category", .vStr p.category.catName)]

/-- The relational store: the persisted rows (each carrying an assigned
id) and the next id the store will generate. -/
structure DB where
  rows : List Product
  nextId : Int

/-- Modelled from the spec: `Product.all()` — every persisted Product. -/
def allProducts (db : DB) : List Product :=
  db.rows

/-- Modelled from the spec: `Product.find(id)` — the Product with that id,
or `none` if absent. -/
def find (pid : Int) (db : DB) : Option Product :=
  db.rows.find? (fun p => p.id == some pid)

/-- Modelled from the spec: `Product.find_by_name(name)` — exact name
match. -/
def find_by_name (nm : String) (db : DB) : List Product :=
  db.rows.filter (fun p => p.name == nm)

/-- Modelled from the spec: `Product.find_by_category(category)` — exact
category match. -/
def find_by_category (c : Category) (db : DB) : List Product :=
  db.rows.filter (fun p => p.category == c)

/-- Modelled from the spec: `Product.find_by_availability(flag)` — exact
availability match. -/
def find_by_availability (b : Bool) (db : DB) : List Product :=
  db.rows.filter (fun p => p.available == b)

/-- The argument of `find_by_price`: a decimal value or its textual form. -/
inductive PriceArg where
  | dec (q : ℚ)
  | str (s : String)

/-- Modelled from the spec: `Product.find_by_price(value)` — exact price
match; a textual price is trimmed of surrounding whitespace and parsed as
a decimal before the exact-decimal comparison (spec section 4.1). An
unparseable text yields `none` (the underlying decimal constructor
error). -/
def find_by_price (arg : PriceArg) (db : DB) : Option (List Product) :=
  match arg with
  | .dec q => some (db.rows.filter (fun p => decide (p.price = q)))
  | .str s =>
    match parsePriceChars (pyStrip s.data) with
    | some q => some (db.rows.filter (fun p => decide (p.price = q)))
    | none => none

/-- Modelled from the spec: `Product.create()` — inserts a new row for a
transient entity and assigns the store-generated id. -/
def create (p : Product) (db : DB) : Product × DB :=
  let p' := { p with id := some db.nextId }
  (p', { rows := db.rows ++ [p'], nextId := db.nextId + 1 })

/-- Modelled from the spec: `Product.update()` — requires `id` to be
non-null, failing with DataValidationError "Update called with empty ID
field" otherwise (spec section 4.1); on success persists the current field
values to the row with that id (a write to an absent row leaves the store
unchanged, matching the store-defined behaviour left open by the spec).
An error writes nothing: no updated store is produced. -/
def update (p : Product) (db : DB) : Except String DB :=
  match p.id with
  | none => .error "Update called with empty ID field"
  | some i =>
    .ok { db with rows := db.rows.map (fun r => if r.id == some i then p else r) }

/-- An HTTP request as the handlers see it: headers and a parsed JSON
body. -/
structure Request where
  headers : List (String × String)
  body : Value

/-- First header with a given name. -/
def lookupHeader (hs : List (String × String)) (k : String) : Option String :=
  match hs with
  | [] => none
  | (k', v) :: rest => if k' = k then some v else lookupHeader rest k

/-- The request's Content-Type header, if any. -/
def contentType (req : Request) : Option String :=
  lookupHeader req.headers "Content-Type"

/-- `check_content_type` of `service/routes.py`: `some message` when the
request must be rejected with 415 (header absent or different), `none`
when the media type matches. -/
def check_content_type (req : Request) (ct : String) : Option String :=
  match contentType req with
  | none => some ("Content-Type must be " ++ ct)
  | some v => if v = ct then none else some ("Content-Type must be " ++ ct)

/-- A route outcome: a successful JSON response, or an aborted one
carrying an error message (Flask `abort(status, message)`; a
DataValidationError recovered at the handler boundary also lands here as
a 400, per spec section 7). -/
inductive RouteResult where
  | ok (status : Nat) (body : Value)
  | err (status : Nat) (message : String)

/-- 200 response whose body is the JSON array of serialized products, as
built by `list_products`. -/
def renderList (ps : List Product) : RouteResult :=
  .ok 200 (.vList (ps.map (fun p => .vDict (serialize p))))

/-- Python `str.lower()`: lowercase each character. -/
def pyLower (s : String) : String :=
  String.mk (s.data.map Char.toLower)

/-- Python truthiness of an optional query-parameter string: present and
non-empty. -/
def truthy (o : Option String) : Bool :=
  match o with
  | none => false
  | some s => !s.isEmpty

/-- `create_products` of `service/routes.py` (POST /products): checks the
media type, deserializes the body into a fresh Product, creates it, and
returns 201 with the serialized product. A deserialization failure is
turned into a 400 whose body is the validation message (modelled from the
spec, section 4.2: "400 if deserialize fails (validation error message as
body)" — the recovery lives in an application-level error handler outside
the checked tree). -/
def create_products (req : Request) (db : DB) : RouteResult × DB :=
  match check_content_type req "application/json" with
  | some msg => (.err 415 msg, db)
  | none =>
    match deserialize emptyProduct req.body with
    | .error msg => (.err 400 msg, db)
    | .ok p =>
      let pdb := create p db
      (.ok 201 (.vDict (serialize pdb.1)), pdb.2)

/-- `list_products` of `service/routes.py` (GET /products): dispatches on
the query parameters `name`, `category`, `available` exactly as the
source does — a truthy `name` wins, else a truthy `category` (aborting
400 on an unknown label), else a present `available` (its value
lowercased and compared against "true"/"yes"/"1"/""), else all rows. -/
def list_products (nm ct av : Option String) (db : DB) : RouteResult :=
  if truthy nm then renderList (find_by_name (nm.getD "") db)
  else if truthy ct then
    match Category.fromName (ct.getD "") with
    | none => .err 400 ("Invalid category: " ++ ct.getD "")
    | some c => renderList (find_by_category c db)
  else if av.isSome then
    renderList (find_by_availability
      (["true", "yes", "1", ""].contains (pyLower (av.getD ""))) db)
  else renderList (allProducts db)

/-- `update_products` of `service/routes.py` (PUT /products/id): media
type first, then existence lookup (404), then deserialization of the body
into the found entity (400 on DataValidationError), then the id is forced
back to the path id before `update`, and the serialized updated product is
returned with 200. -/
def update_products (pid : Int) (req : Request) (db : DB) : RouteResult × DB :=
  match check_content_type req "application/json" with
  | some msg => (.err 415 msg, db)
  | none =>
    match find pid db with
    | none =>
      (.err 404 ("Product with id '" ++ toString pid ++ "' was not found."), db)
    | some prod =>
      match deserialize prod req.body with
      | .error msg => (.err 400 msg, db)
      | .ok r =>
        match update { r with id := some pid } db with
        | .error msg => (.err 400 msg, db)
        | .ok db' => (.ok 200 (.vDict (serialize { r with id := some pid })), db')

/-- The HTTP status of a route outcome. -/
def statusOf : RouteResult → Nat
  | .ok s _ => s
  | .err s _ => s

/-- The `id` entry of a JSON-object response body, when there is one. -/
def bodyIdOf : RouteResult → Option Value
  | .ok _ (.vDict fs) => lookupKV fs "id"
  | _ => none

/-- Length of a JSON-array response body, when there is one (used to tell
two list responses apart). -/
def bodyLen : RouteResult → Option Nat
  | .ok _ (.vList xs) => some xs.length
  | _ => none

/-- The entity id carried by a successful deserialization, `none` on
error. -/
def resultId : Except String Product → Option (Option Int)
  | .ok p => some p.id
  | .error _ => none

/-! ### Concrete fixtures used by witnesses and counterexamples -/

/-- A persisted product, available and in the CLOTHS category. -/
def prodW : Product :=
  { id := some 1, name := "Hat", description := "A red fedora",
    price := mkRat 1 1, available := true, category := .CLOTHS }

/-- A one-row store holding `prodW`. -/
def dbW : DB := { rows := [prodW], nextId := 2 }

/-- A well-formed JSON PUT/POST request whose body carries `id` 99. -/
def reqW : Request :=
  { headers := [("Content-Type", "application/json")],
    body := .vDict [("id", .vInt 99), ("name", .vStr "Hat"),
                    ("description", .vStr "d"), ("price", .vStr "12.50"),
                    ("available", .vBool true), ("category", .vStr "CLOTHS")] }

/-- A JSON request whose body lacks the `name` key. -/
def reqNoName : Request :=
  { headers := [("Content-Type", "application/json")],
    body := .vDict [("id", .vInt 1), ("description", .vStr "d"),
                    ("price", .vStr "1"), ("available", .vBool true),
                    ("category", .vStr "FOOD")] }

/-- A request with no Content-Type header at all. -/
def reqNoCT : Request := { headers := [], body := .vDict [] }

/-! ### Helper lemmas -/

/-- A matching Content-Type passes `check_content_type`. -/
theorem check_content_type_eq_none {req : Request} {s : String}
    (h : contentType req = some s) : check_content_type req s = none := by
  simp [check_content_type, h]

/-- A missing or different Content-Type fails `check_content_type` with
the fixed message. -/
theorem check_content_type_eq_some {req : Request} {s : String}
    (h : contentType req ≠ some s) :
    check_content_type req s = some ("Content-Type must be " ++ s) := by
  unfold check_content_type
  cases hc : contentType req with
  | none => rfl
  | some v =>
    rw [hc] at h
    have hv : ¬v = s := fun e => h (by rw [e])
    simp [hv]

/-- Dropping a satisfied prefix: `dropWhile` over an append whose first
part satisfies the predicate throughout. -/
theorem dropWhile_all_append (p : Char → Bool) (xs ys : List Char)
    (h : ∀ c ∈ xs, p c = true) :
    (xs ++ ys).dropWhile p = ys.dropWhile p := by
  induction xs with
  | nil => rfl
  | cons a t ih =>
    simp only [List.cons_append, List.dropWhile]
    rw [h a (List.mem_cons_self a t)]
    exact ih (fun c hc => h c (List.mem_cons_of_mem a hc))

/-- `dropWhile` keeps a list whose head fails the predicate. -/
theorem dropWhile_head_false (p : Char → Bool) (a : Char) (t : List Char)
    (h : p a = false) : (a :: t).dropWhile p = a :: t := by
  simp [List.dropWhile, h]

/-- Python `strip()` of whitespace around a whitespace-free nonempty core
gives back the core. -/
theorem pyStrip_sandwich (ws1 ws2 r : List Char)
    (h1 : ∀ c ∈ ws1, c.isWhitespace = true)
    (h2 : ∀ c ∈ ws2, c.isWhitespace = true)
    (h3 : ∀ c ∈ r, c.isWhitespace = false)
    (h4 : r ≠ []) :
    pyStrip (ws1 ++ (r ++ ws2)) = r := by
  obtain ⟨a, r', rfl⟩ : ∃ a r', r = a :: r' := by
    cases r with
    | nil => exact absurd rfl h4
    | cons a r' => exact ⟨a, r', rfl⟩
  unfold pyStrip
  rw [dropWhile_all_append _ _ _ h1, List.cons_append,
    dropWhile_head_false _ _ _ (h3 a (List.mem_cons_self a r')),
    ← List.cons_append, List.reverse_append,
    dropWhile_all_append _ _ _ (fun c hc => h2 c (List.mem_reverse.mp hc))]
  have hkeep : ((a :: r').reverse).dropWhile Char.isWhitespace = (a :: r').reverse := by
    cases hrev : (a :: r').reverse with
    | nil => exact absurd hrev (by simp)
    | cons b t =>
      have hb : b ∈ (a :: r') := List.mem_reverse.mp (by rw [hrev]; exact List.mem_cons_self b t)
      exact dropWhile_head_false _ _ _ (h3 b hb)
  rw [hkeep, List.reverse_reverse]

/-! ### Claims -/

/-- C6: for every Product whose `id` is null (transient), `update()` fails
with the DataValidationError message "Update called with empty ID field";
no updated store is produced, so nothing is written. -/
theorem c6_update_transient_fails (p : Product) (db : DB) (h : p.id = none) :
    update p db = .error "Update called with empty ID field" := by
  simp [update, h]

/-- Witness for C6 at a concrete transient product and store. -/
theorem c6_update_transient_fails_witness :
    update emptyProduct dbW = .error "Update called with empty ID field" :=
  c6_update_transient_fails emptyProduct dbW rfl

/-- C7: for every input mapping in which `available` is present but not
boolean-typed, `deserialize` fails with "Invalid type for boolean
[available]: <observed type>". -/
theorem c7_available_not_bool (self : Product) (fs : List (String × Value))
    (v : Value) (h1 : lookupKV fs "available" = some v) (h2 : v.isBool = false) :
    deserialize self (.vDict fs) =
      .error ("Invalid type for boolean [available]: " ++ pyTypeName v) := by
  simp [deserialize, h1, h2]

/-- Witness for C7: a string-valued `available` is reported with the
observed type `<class 'str'>`, as `test_deserialize_available_not_bool`
expects. -/
theorem c7_available_not_bool_witness :
    deserialize emptyProduct (.vDict [("available", .vStr "Not a bool")]) =
      .error ("Invalid type for boolean [available]: " ++ pyTypeName (.vStr "Not a bool")) :=
  c7_available_not_bool emptyProduct [("available", .vStr "Not a bool")]
    (.vStr "Not a bool") rfl rfl

/-- C2: a POST /products request with the JSON media type whose body fails
`deserialize` yields 400 with the validation message as body, and the
store is unchanged — no product is created. -/
theorem c2_post_invalid_body (req : Request) (db : DB) (msg : String)
    (hct : contentType req = some "application/json")
    (hde : deserialize emptyProduct req.body = .error msg) :
    create_products req db = (.err 400 msg, db) := by
  simp [create_products, check_content_type_eq_none hct, hde]

/-- Witness for C2: POSTing a body with no `name` key gives 400 with
"Invalid product: missing name" and leaves the store as it was. -/
theorem c2_post_invalid_body_witness :
    create_products reqNoName dbW = (.err 400 "Invalid product: missing name", dbW) :=
  c2_post_invalid_body reqNoName dbW "Invalid product: missing name" rfl rfl

/-- C9: an empty-valued `name` query parameter is skipped entirely — the
GET /products dispatch behaves exactly as if `name` were absent, falling
through to the category filter, the availability filter, and list-all. -/
theorem c9_empty_name_skipped (ct av : Option String) (db : DB) :
    list_products (some "") ct av db = list_products none ct av db := rfl

/-- C10: a PUT /products/id request whose Content-Type is missing or not
`application/json` is answered 415 with the store untouched, whatever the
path id and whatever the store holds — the media-type check comes before
the existence lookup. -/
theorem c10_put_content_type_first (pid : Int) (req : Request) (db : DB)
    (h : contentType req ≠ some "application/json") :
    update_products pid req db =
      (.err 415 "Content-Type must be application/json", db) := by
  rw [update_products, check_content_type_eq_some h]
  simp

/-- Witness for C10: a header-less PUT to an id that does exist in the
store is still answered 415, not 404. -/
theorem c10_put_content_type_first_witness :
    update_products 1 reqNoCT dbW =
      (.err 415 "Content-Type must be application/json", dbW) :=
  c10_put_content_type_first 1 reqNoCT dbW (by decide)

/-- C1 counterexample: a mapping holding every data field but no `id` key
is rejected by `deserialize` with "Invalid product: missing id" (so `id`
is required), and a mapping carrying `id` 7 makes the deserialized
entity's `id` equal to 7 even though the receiving entity was transient
(so `id` is not left untouched). -/
theorem c1_counterexample :
    deserialize emptyProduct (.vDict [("name", .vStr "Hat"),
        ("description", .vStr "A red fedora"), ("price", .vStr "59.95"),
        ("available", .vBool true), ("category", .vStr "CLOTHS")]) =
      .error "Invalid product: missing id" ∧
    resultId (deserialize emptyProduct (.vDict [("id", .vInt 7),
        ("name", .vStr "Hat"), ("description", .vStr "A red fedora"),
        ("price", .vStr "59.95"), ("available", .vBool true),
        ("category", .vStr "CLOTHS")])) = some (some 7) :=
  ⟨rfl, rfl⟩

/-- C1 (amended): `deserialize` requires the `id` key — a mapping without
it is never accepted — and on success it sets the entity's `id` from the
mapping's `id` value, alongside the data fields. -/
theorem c1_requires_and_sets_id (self : Product) (fs : List (String × Value)) :
    (lookupKV fs "id" = none → resultId (deserialize self (.vDict fs)) = none) ∧
    (∀ v pr, lookupKV fs "id" = some v → deserialize self (.vDict fs) = .ok pr →
      pr.id = idOfValue v) := by
  constructor
  · intro h
    cases hav : lookupKV fs "available" with
    | none => simp [deserialize, hav, deserialize.deserializeFields, h, resultId]
    | some v =>
      cases hb : v.isBool <;>
        simp [deserialize, hav, hb, deserialize.deserializeFields, h, resultId]
  · intro v pr hid hok
    have hfields : ∀ hok' : deserialize.deserializeFields self fs = .ok pr,
        pr.id = idOfValue v := by
      intro hok'
      rw [deserialize.deserializeFields, hid] at hok'
      cases hdr : decodeRest fs with
      | error e => rw [hdr] at hok'; exact absurd hok' (by simp)
      | ok t =>
        obtain ⟨nm, d, pr', b, cat⟩ := t
        rw [hdr] at hok'
        have := (Except.ok.injEq _ _).mp hok'
        rw [← this]
    cases hav : lookupKV fs "available" with
    | none =>
      rw [deserialize, hav] at hok
      exact hfields hok
    | some w =>
      rw [deserialize, hav] at hok
      cases hb : w.isBool with
      | true => exact hfields (by simpa [hb] using hok)
      | false => simp [hb] at hok

/-- Witness for C1 (amended): a mapping with data fields but no `id` is
not accepted. -/
theorem c1_requires_and_sets_id_witness :
    resultId (deserialize emptyProduct (.vDict [("name", .vStr "Hat"),
        ("description", .vStr "d"), ("price", .vStr "1"),
        ("available", .vBool true), ("category", .vStr "FOOD")])) = none :=
  (c1_requires_and_sets_id emptyProduct [("name", .vStr "Hat"),
    ("description", .vStr "d"), ("price", .vStr "1"),
    ("available", .vBool true), ("category", .vStr "FOOD")]).1 rfl

/-- C3 counterexample: for the `available` value "True" — not one of the
literal values "true", "yes", "1", "" — the claim demands the
false-availability filter, but the handler answers with the
true-availability filter: on a store whose only row is available, the
response is not the (empty) false-filtered rendering. -/
theorem c3_counterexample :
    list_products none none (some "True") dbW ≠
      renderList (find_by_availability false dbW) := by
  intro h
  exact absurd (congrArg bodyLen h) (by decide)

/-- C3 (amended): when no name or category filter takes precedence, the
`available` value is lowercased first; if the lowercased value is "true",
"yes", "1" or the empty string the handler filters on availability true,
otherwise on availability false. -/
theorem c3_available_lowercased (nm ct : Option String) (s : String) (db : DB)
    (h1 : truthy nm = false) (h2 : truthy ct = false) :
    list_products nm ct (some s) db =
      renderList (find_by_availability
        (["true", "yes", "1", ""].contains (pyLower s)) db) := by
  simp [list_products, h1, h2]

/-- Witness for C3 (amended) at the value "True", which lowercases into
the true-availability filter. -/
theorem c3_available_lowercased_witness :
    list_products none none (some "True") dbW =
      renderList (find_by_availability
        (["true", "yes", "1", ""].contains (pyLower "True")) dbW) :=
  c3_available_lowercased none none "True" dbW rfl rfl

/-- C4: GET /products applies exactly one filter by fixed precedence — a
non-empty `name` wins, else a non-empty `category` (400 when its label is
not a recognized enum label), else a present `available`, else list-all —
and a 400 arises in exactly the invalid-category case. -/
theorem c4_list_dispatch (nm ct av : Option String) (db : DB) :
    (truthy nm = true →
      list_products nm ct av db = renderList (find_by_name (nm.getD "") db)) ∧
    (truthy nm = false → truthy ct = true →
      ∀ c, Category.fromName (ct.getD "") = some c →
        list_products nm ct av db = renderList (find_by_category c db)) ∧
    (truthy nm = false → truthy ct = true →
      Category.fromName (ct.getD "") = none →
        list_products nm ct av db = .err 400 ("Invalid category: " ++ ct.getD "")) ∧
    (truthy nm = false → truthy ct = false → av.isSome = true →
      list_products nm ct av db = renderList (find_by_availability
        (["true", "yes", "1", ""].contains (pyLower (av.getD ""))) db)) ∧
    (truthy nm = false → truthy ct = false → av = none →
      list_products nm ct av db = renderList (allProducts db)) ∧
    ((∃ m, list_products nm ct av db = .err 400 m) ↔
      truthy nm = false ∧ truthy ct = true ∧ Category.fromName (ct.getD "") = none) := by
  refine ⟨?_, ?_, ?_, ?_, ?_, ?_⟩
  · intro h1; simp [list_products, h1]
  · intro h1 h2 c hc; simp [list_products, h1, h2, hc]
  · intro h1 h2 hc; simp [list_products, h1, h2, hc]
  · intro h1 h2 h3; simp [list_products, h1, h2, h3]
  · intro h1 h2 h3; simp [list_products, h1, h2, h3]
  · constructor
    · rintro ⟨m, hm⟩
      cases h1 : truthy nm with
      | true => simp [list_products, h1, renderList] at hm
      | false =>
        cases h2 : truthy ct with
        | true =>
          cases hc : Category.fromName (ct.getD "") with
          | none => exact ⟨rfl, rfl, rfl⟩
          | some c => simp [list_products, h1, h2, hc, renderList] at hm
        | false =>
          cases h3 : av.isSome with
          | true => simp [list_products, h1, h2, h3, renderList] at hm
          | false =>
            have : av = none := Option.not_isSome_iff_eq_none.mp (by simp [h3])
            simp [list_products, h1, h2, this, renderList] at hm
    · rintro ⟨h1, h2, hc⟩
      refine ⟨"Invalid category: " ++ ct.getD "", ?_⟩
      simp [list_products, h1, h2, hc]

/-- Witness for C4: with only a `name` parameter the handler answers with
the name-filtered rendering. -/
theorem c4_list_dispatch_witness :
    list_products (some "Hat") none none dbW =
      renderList (find_by_name ((some "Hat").getD "") dbW) :=
  (c4_list_dispatch (some "Hat") none none dbW).1 rfl

/-- C5: for a JSON PUT /products/id, (i) an unknown path id is answered
404 with the store untouched; (ii) when the product exists and the body
deserializes, the response is 200 and the `id` of the serialized product
in the body is the path id; (iii) the `id` value carried by the body has
no effect — two bodies whose deserializations agree on everything except
`id` produce identical results. -/
theorem c5_put_forces_path_id (pid : Int) (req : Request) (db : DB)
    (hct : contentType req = some "application/json") :
    (find pid db = none → update_products pid req db =
      (.err 404 ("Product with id '" ++ toString pid ++ "' was not found."), db)) ∧
    (∀ prod r, find pid db = some prod → deserialize prod req.body = .ok r →
      statusOf (update_products pid req db).1 = 200 ∧
      bodyIdOf (update_products pid req db).1 = some (.vInt pid)) ∧
    (∀ b₁ b₂ prod r₁ r₂, find pid db = some prod →
      deserialize prod b₁ = .ok r₁ → deserialize prod b₂ = .ok r₂ →
      r₁.name = r₂.name → r₁.description = r₂.description →
      r₁.price = r₂.price → r₁.available = r₂.available →
      r₁.category = r₂.category →
      update_products pid { req with body := b₁ } db =
        update_products pid { req with body := b₂ } db) := by
  refine ⟨?_, ?_, ?_⟩
  · intro h
    simp [update_products, check_content_type_eq_none hct, h]
  · intro prod r hfind hde
    simp [update_products, check_content_type_eq_none hct, hfind, hde, update,
      statusOf, bodyIdOf, serialize, lookupKV]
  · intro b₁ b₂ prod r₁ r₂ hfind hde₁ hde₂ e1 e2 e3 e4 e5
    have hct' : ∀ b, contentType { req with body := b } = some "application/json" := by
      intro b; exact hct
    have heq : ({ r₁ with id := some pid } : Product) = { r₂ with id := some pid } := by
      cases r₁; cases r₂; simp_all
    simp only [update_products, check_content_type_eq_none (hct' b₁),
      check_content_type_eq_none (hct' b₂), hfind, hde₁, hde₂, heq]

/-- Witness for C5: updating the existing product 1 with a body that
claims `id` 99 answers 200 and the response body's `id` is 1. -/
theorem c5_put_forces_path_id_witness :
    statusOf (update_products 1 reqW dbW).1 = 200 ∧
    bodyIdOf (update_products 1 reqW dbW).1 = some (.vInt 1) :=
  (c5_put_forces_path_id 1 reqW dbW rfl).2.1 prodW
    { id := some 99, name := "Hat", description := "d", price := mkRat 25 2,
      available := true, category := .CLOTHS } rfl rfl

/-- C8: `find_by_price` on a textual price surrounded by whitespace
returns exactly what it returns on the decimal value the text denotes:
the text is trimmed and parsed as a decimal before the exact-decimal
comparison, so the surrounding whitespace and the particular rendering of
the value are irrelevant. -/
theorem c8_price_text_equals_decimal (db : DB) (p : ℚ) (ws1 ws2 r : List Char)
    (h1 : ∀ c ∈ ws1, c.isWhitespace = true)
    (h2 : ∀ c ∈ ws2, c.isWhitespace = true)
    (h3 : ∀ c ∈ r, c.isWhitespace = false)
    (h4 : r ≠ [])
    (h5 : parsePriceChars r = some p) :
    find_by_price (.str (String.mk (ws1 ++ (r ++ ws2)))) db =
      find_by_price (.dec p) db := by
  have hstrip : pyStrip (String.mk (ws1 ++ (r ++ ws2))).data = r :=
    pyStrip_sandwich ws1 ws2 r h1 h2 h3 h4
  simp [find_by_price, hstrip, h5]

/-- Witness for C8: the text " 12.50  " and the decimal 25/2 select the
same rows. -/
theorem c8_price_text_equals_decimal_witness :
    find_by_price (.str (String.mk ([' '] ++ ("12.50".data ++ [' ', ' '])))) dbW =
      find_by_price (.dec (mkRat 25 2)) dbW :=
  c8_price_text_equals_decimal dbW (mkRat 25 2) [' '] [' ', ' '] "12.50".data
    (by decide) (by decide) (by decide) (by decide) (by decide)

end ProductService
